import Mathlib

/-!
Verification of the minigrep utility from the learning-rust repository:
the Config Loader (`Config::new` in src/minigrep/src/lib.rs), the Content
Reader (`run` in the same file) and the two process entry points
(src/minigrep/src/main.rs and src/12_minigrep/src/main.rs).

The filesystem is an external collaborator: it is modelled as a function
from a filename to either the file's full text contents or an I/O error
carrying the platform-reported reason, exactly the interface
`fs::read_to_string` exposes to the program.
-/

/-- The `Config` struct of src/minigrep/src/lib.rs: a query string and a
filename, both borrowed `String`s (references in Rust are never null, so
plain `String` fields are the faithful model). -/
structure Config where
  query : String
  filename : String
deriving Repr, DecidableEq

/-- `Config::new` of src/minigrep/src/lib.rs, translated directly: fewer
than 3 tokens is an error with message "not enough arguments"; otherwise
the query is token 1 and the filename token 2, verbatim. The indexing
`&args[1]`, `&args[2]` is guarded by the length check, so it is rendered
with `List.get` and a proof. -/
def Config.new (args : List String) : Except String Config :=
  if h : args.length < 3 then
    Except.error "not enough arguments"
  else
    Except.ok ⟨args.get ⟨1, by omega⟩, args.get ⟨2, by omega⟩⟩

/-- Panic-aware model of `Config::new`: Rust slice indexing `&args[i]`
aborts the process when `i` is out of bounds, so here each index access is
rendered with `List.get?` and an out-of-bounds access yields `none`
(a panic). Used to show the guarded accesses can never panic. -/
def Config.new? (args : List String) : Option (Except String Config) :=
  if args.length < 3 then
    some (Except.error "not enough arguments")
  else
    match args.get? 1, args.get? 2 with
    | some query, some filename => some (Except.ok ⟨query, filename⟩)
    | _, _ => none

/-- An I/O error surfaced by `fs::read_to_string`, wrapping the
platform-reported reason. -/
structure IoError where
  reason : String
deriving Repr, DecidableEq

/-- The filesystem as seen through `fs::read_to_string`: a filename maps to
either the complete text contents of the file or an `IoError` (file absent,
unreadable, or not valid UTF-8). -/
abbrev FS := String → Except IoError String

/-- Observable outcome of one call to `run`: the filenames passed to
`fs::read_to_string` (in order), the text written to standard output, and
the returned `Result`. -/
structure RunResult where
  reads : List String
  stdout : String
  result : Except IoError Unit
deriving Repr

/-- `run` of src/minigrep/src/lib.rs, translated directly: it reads the
file named by `config.filename`; on error the `?` operator returns the
error before anything is printed; on success it prints
`"With text:\n{contents}"` (with the trailing newline `println!` appends)
and returns `Ok(())`. -/
def run (fs : FS) (config : Config) : RunResult :=
  match fs config.filename with
  | Except.error e => ⟨[config.filename], "", Except.error e⟩
  | Except.ok contents =>
      ⟨[config.filename], "With text:\n" ++ contents ++ "\n", Except.ok ()⟩

/-- Observable outcome of one process invocation: the text written to
standard output, the text written to the error stream, the exit code, and
the filenames read from the filesystem. -/
structure ProcResult where
  stdout : String
  stderr : String
  exitCode : Nat
  reads : List String
deriving Repr, DecidableEq

/-- `main` of src/minigrep/src/main.rs, translated directly. Note that this
entry point prints both diagnostics with `println!`, i.e. to standard
output, and exits with code 1 on either failure; on success it exits with
code 0 and the only output is what `run` printed. On the config-error path
`run` is never called, so nothing is read. -/
def minigrep.main (fs : FS) (args : List String) : ProcResult :=
  match Config.new args with
  | Except.error err =>
      ⟨"Problem parsing arguments: " ++ err ++ "\n", "", 1, []⟩
  | Except.ok config =>
      let r := run fs config
      match r.result with
      | Except.error e =>
          ⟨r.stdout ++ ("Application error: " ++ e.reason ++ "\n"), "", 1, r.reads⟩
      | Except.ok _ => ⟨r.stdout, "", 0, r.reads⟩

/-- Modelled from the spec: the 12_minigrep crate's library (its Config
Loader and Content Reader) is not under src/ — only its entry point
src/12_minigrep/src/main.rs is. Per the spec both crates implement the same
Config Loader and Content Reader contracts, so this entry point reuses
`Config.new` and `run`. Its own code differs from the minigrep entry point
in one way visible in src/12_minigrep/src/main.rs: both diagnostics are
printed with `eprintln!`, i.e. to the error stream. -/
def minigrep12.main (fs : FS) (args : List String) : ProcResult :=
  match Config.new args with
  | Except.error err =>
      ⟨"", "Problem parsing arguments: " ++ err ++ "\n", 1, []⟩
  | Except.ok config =>
      let r := run fs config
      match r.result with
      | Except.error e =>
          ⟨r.stdout, "Application error: " ++ e.reason ++ "\n", 1, r.reads⟩
      | Except.ok _ => ⟨r.stdout, "", 0, r.reads⟩

/-- A filesystem with no readable files: every read fails with the
platform's file-not-found reason. -/
def emptyFS : FS := fun _ =>
  Except.error ⟨"No such file or directory (os error 2)"⟩

/-- A filesystem holding exactly one file, poem.txt, whose contents are
"Roses are red". -/
def poemFS : FS := fun name =>
  if name = "poem.txt" then Except.ok "Roses are red"
  else Except.error ⟨"No such file or directory (os error 2)"⟩

/-- C1: for every token sequence of length at least 3, `Config::new`
succeeds with query = token 1 and filename = token 2 verbatim, and the
outcome is independent of any tokens beyond index 2 (it agrees with the
outcome on the first three tokens alone). -/
theorem config_new_ok (args : List String) (h : 3 ≤ args.length) :
    Config.new args =
      Except.ok ⟨args.get ⟨1, by omega⟩, args.get ⟨2, by omega⟩⟩ ∧
    Config.new args = Config.new (List.take 3 args) := by
  constructor
  · unfold Config.new
    rw [dif_neg (by omega)]
  · unfold Config.new
    rw [dif_neg (by omega), dif_neg (by simp [List.length_take]; omega)]
    simp [List.get_eq_getElem, List.getElem_take']

/-- Witness for C1 at a concrete input: exactly-minimum length plus one
ignored extra token, with empty-string query and filename accepted. -/
theorem config_new_ok_witness :
    Config.new ["prog", "", "", "extra"] = Except.ok ⟨"", ""⟩ ∧
    Config.new ["prog", "", "", "extra"] =
      Config.new (List.take 3 ["prog", "", "", "extra"]) := by
  have h := config_new_ok ["prog", "", "", "extra"] (by decide)
  exact ⟨h.1.trans rfl, h.2⟩

/-- C2: for every token sequence of length less than 3, `Config::new`
fails with exactly the message "not enough arguments". -/
theorem config_new_err (args : List String) (h : args.length < 3) :
    Config.new args = Except.error "not enough arguments" := by
  unfold Config.new
  rw [dif_pos h]

/-- Witness for C2 at the empty token sequence. -/
theorem config_new_err_witness :
    Config.new [] = Except.error "not enough arguments" :=
  config_new_err [] (by decide)

/-- Helper: the success case of `Config::new`, unfolded. -/
theorem Config.new_eq_ok (args : List String) (h : ¬ args.length < 3) :
    Config.new args =
      Except.ok ⟨args.get ⟨1, by omega⟩, args.get ⟨2, by omega⟩⟩ := by
  unfold Config.new
  rw [dif_neg h]

/-- Helper: the failure case of `Config::new`, unfolded. -/
theorem Config.new_eq_err (args : List String) (h : args.length < 3) :
    Config.new args = Except.error "not enough arguments" := by
  unfold Config.new
  rw [dif_pos h]

/-- Helper: `run` when the read fails. -/
theorem run_eq_error (fs : FS) (c : Config) (e : IoError)
    (h : fs c.filename = Except.error e) :
    run fs c = ⟨[c.filename], "", Except.error e⟩ := by
  unfold run
  rw [h]

/-- Helper: `run` when the read succeeds. -/
theorem run_eq_ok (fs : FS) (c : Config) (s : String)
    (h : fs c.filename = Except.ok s) :
    run fs c = ⟨[c.filename], "With text:\n" ++ s ++ "\n", Except.ok ()⟩ := by
  unfold run
  rw [h]

/-- C3 counterexample: in the minigrep entry point the config-failure
diagnostic goes to standard output; the error stream stays empty, refuting
the claim that the diagnostic is written to the error stream and not to
standard output. The exit code is 1 as claimed. -/
theorem main_error_stream_counterexample :
    (minigrep.main emptyFS ["prog"]).stderr = "" ∧
    (minigrep.main emptyFS ["prog"]).stdout =
      "Problem parsing arguments: not enough arguments\n" ∧
    (minigrep.main emptyFS ["prog"]).exitCode = 1 :=
  ⟨rfl, rfl, rfl⟩

/-- C3 amended: on either failure the fixed diagnostic line is emitted and
the process exits with code 1; the 12_minigrep entry point writes it to the
error stream (eprintln), while the minigrep entry point writes the same
line to standard output (println). -/
theorem main_diagnostics (fs : FS) (args : List String) :
    (args.length < 3 →
      minigrep12.main fs args =
        ⟨"", "Problem parsing arguments: not enough arguments\n", 1, []⟩ ∧
      minigrep.main fs args =
        ⟨"Problem parsing arguments: not enough arguments\n", "", 1, []⟩) ∧
    ∀ (h : 3 ≤ args.length) (e : IoError),
      fs (args.get ⟨2, by omega⟩) = Except.error e →
      minigrep12.main fs args =
        ⟨"", "Application error: " ++ e.reason ++ "\n", 1,
          [args.get ⟨2, by omega⟩]⟩ ∧
      minigrep.main fs args =
        ⟨"Application error: " ++ e.reason ++ "\n", "", 1,
          [args.get ⟨2, by omega⟩]⟩ := by
  constructor
  · intro h
    have hc := Config.new_eq_err args h
    simp only [minigrep.main, minigrep12.main, hc]
    exact ⟨rfl, rfl⟩
  · intro h e he
    have hc := Config.new_eq_ok args (by omega)
    have hr := run_eq_error fs
      ⟨args.get ⟨1, by omega⟩, args.get ⟨2, by omega⟩⟩ e he
    simp only [minigrep.main, minigrep12.main, hc, hr]
    refine ⟨?_, ?_⟩ <;> first | rfl | trivial

/-- Witness for C3 amended: both failure kinds at concrete inputs. -/
theorem main_diagnostics_witness :
    (minigrep12.main emptyFS ["prog"] =
       ⟨"", "Problem parsing arguments: not enough arguments\n", 1, []⟩ ∧
     minigrep.main emptyFS ["prog"] =
       ⟨"Problem parsing arguments: not enough arguments\n", "", 1, []⟩) ∧
    (minigrep12.main emptyFS ["prog", "hello", "missing.txt"] =
       ⟨"", "Application error: No such file or directory (os error 2)\n",
         1, ["missing.txt"]⟩ ∧
     minigrep.main emptyFS ["prog", "hello", "missing.txt"] =
       ⟨"Application error: No such file or directory (os error 2)\n", "",
         1, ["missing.txt"]⟩) := by
  refine ⟨(main_diagnostics emptyFS ["prog"]).1 (by decide), ?_⟩
  have h := (main_diagnostics emptyFS ["prog", "hello", "missing.txt"]).2
    (by decide) ⟨"No such file or directory (os error 2)"⟩ rfl
  exact ⟨h.1.trans rfl, h.2.trans rfl⟩

/-- C4 counterexample: the poem scenario exits with code 0 but standard
output carries the trailing newline appended by println, so it is not
exactly the claimed string. -/
theorem main_success_counterexample :
    (minigrep.main poemFS ["prog", "hello", "poem.txt"]).exitCode = 0 ∧
    (minigrep.main poemFS ["prog", "hello", "poem.txt"]).stdout =
      "With text:\nRoses are red\n" ∧
    (minigrep.main poemFS ["prog", "hello", "poem.txt"]).stdout ≠
      "With text:\nRoses are red" := by
  refine ⟨rfl, rfl, by decide⟩

/-- C4 amended: when both stages succeed, the process writes the label
line, the verbatim contents and a trailing newline to standard output,
writes nothing to the error stream, exits with code 0, and read exactly
the named file; in the poem scenario standard output is exactly the
string "With text:\nRoses are red\n". -/
theorem main_success (fs : FS) (args : List String) (h : 3 ≤ args.length)
    (contents : String)
    (hread : fs (args.get ⟨2, by omega⟩) = Except.ok contents) :
    minigrep.main fs args =
      ⟨"With text:\n" ++ contents ++ "\n", "", 0,
        [args.get ⟨2, by omega⟩]⟩ := by
  have hc := Config.new_eq_ok args (by omega)
  have hr := run_eq_ok fs
    ⟨args.get ⟨1, by omega⟩, args.get ⟨2, by omega⟩⟩ contents hread
  simp only [minigrep.main, hc, hr]

/-- Witness for C4 amended: the poem scenario. -/
theorem main_success_witness :
    minigrep.main poemFS ["prog", "hello", "poem.txt"] =
      ⟨"With text:\nRoses are red\n", "", 0, ["poem.txt"]⟩ :=
  (main_success poemFS ["prog", "hello", "poem.txt"] (by decide)
    "Roses are red" rfl).trans rfl

/-- C5: whenever reading the named file fails, `run` propagates exactly the
underlying platform error, prints nothing to standard output, and returns
no content. -/
theorem run_io_error (fs : FS) (config : Config) (e : IoError)
    (h : fs config.filename = Except.error e) :
    run fs config = ⟨[config.filename], "", Except.error e⟩ :=
  run_eq_error fs config e h

/-- Witness for C5: a missing file under the empty filesystem. -/
theorem run_io_error_witness :
    run emptyFS ⟨"hello", "missing.txt"⟩ =
      ⟨["missing.txt"], "",
        Except.error ⟨"No such file or directory (os error 2)"⟩⟩ :=
  run_io_error emptyFS ⟨"hello", "missing.txt"⟩
    ⟨"No such file or directory (os error 2)"⟩ rfl

/-- C6: when the token sequence makes the Config Loader fail, the process
reads no file at all, exits with code 1, and its whole observable behavior
is independent of the state of the filesystem. -/
theorem main_no_read_on_config_error (fs fs2 : FS) (args : List String)
    (h : args.length < 3) :
    (minigrep.main fs args).reads = [] ∧
    (minigrep.main fs args).exitCode = 1 ∧
    minigrep.main fs args = minigrep.main fs2 args := by
  have hc := Config.new_eq_err args h
  simp only [minigrep.main, hc]
  refine ⟨?_, ?_, ?_⟩ <;> first | rfl | trivial

/-- Witness for C6: one-token invocation under two different filesystems. -/
theorem main_no_read_witness :
    (minigrep.main emptyFS ["prog"]).reads = [] ∧
    (minigrep.main emptyFS ["prog"]).exitCode = 1 ∧
    minigrep.main emptyFS ["prog"] = minigrep.main poemFS ["prog"] :=
  main_no_read_on_config_error emptyFS poemFS ["prog"] (by decide)

/-- C7: `run` consults only the filename field of the Configuration; two
Configurations with the same filename produce identical outcomes whatever
their queries. -/
theorem run_query_independent (fs : FS) (c1 c2 : Config)
    (h : c1.filename = c2.filename) : run fs c1 = run fs c2 := by
  unfold run
  rw [h]

/-- Witness for C7: same filename, different queries. -/
theorem run_query_independent_witness :
    run poemFS ⟨"hello", "poem.txt"⟩ = run poemFS ⟨"world", "poem.txt"⟩ :=
  run_query_independent poemFS ⟨"hello", "poem.txt"⟩
    ⟨"world", "poem.txt"⟩ rfl

/-- A second filesystem agreeing with poemFS on poem.txt but differing
everywhere else, used to exercise idempotence under an unchanged file. -/
def poemFS2 : FS := fun name =>
  if name = "poem.txt" then Except.ok "Roses are red"
  else Except.ok "unrelated"

/-- C8: when the read succeeds, `run` reproduces the file's contents
byte-for-byte in its output (between the label line and the trailing
newline) and succeeds; and it is idempotent: a repeated call against any
filesystem in which the named file is unchanged yields an identical
outcome. -/
theorem run_contents (fs fs2 : FS) (config : Config) (contents : String)
    (h : fs config.filename = Except.ok contents)
    (h2 : fs2 config.filename = fs config.filename) :
    run fs config =
      ⟨[config.filename], "With text:\n" ++ contents ++ "\n",
        Except.ok ()⟩ ∧
    run fs2 config = run fs config := by
  refine ⟨run_eq_ok fs config contents h, ?_⟩
  unfold run
  rw [h2]

/-- Witness for C8: poem.txt under two filesystems that agree on it. -/
theorem run_contents_witness :
    run poemFS ⟨"hello", "poem.txt"⟩ =
      ⟨["poem.txt"], "With text:\nRoses are red\n", Except.ok ()⟩ ∧
    run poemFS2 ⟨"hello", "poem.txt"⟩ = run poemFS ⟨"hello", "poem.txt"⟩ := by
  have h := run_contents poemFS poemFS2 ⟨"hello", "poem.txt"⟩
    "Roses are red" rfl rfl
  exact ⟨h.1.trans rfl, h.2⟩

/-- C9: every Config value has both fields present (it is exactly the pair
of its query and filename, and Lean strings, like Rust references, cannot
be null), and construction is all-or-nothing: `Config::new` either returns
a complete Config or the fixed error with no value produced. -/
theorem config_all_or_nothing :
    (∀ c : Config, c = ⟨c.query, c.filename⟩) ∧
    ∀ args : List String,
      (∃ q f, Config.new args = Except.ok ⟨q, f⟩) ∨
      Config.new args = Except.error "not enough arguments" := by
  refine ⟨fun c => rfl, fun args => ?_⟩
  by_cases h : args.length < 3
  · exact Or.inr (Config.new_eq_err args h)
  · exact Or.inl ⟨_, _, Config.new_eq_ok args h⟩

/-- C10: `Config::new` never panics: the panic-aware model, in which each
slice access can abort, always returns a value, and that value is the one
the total translation computes — the accesses at indices 1 and 2 sit
behind the length guard, so the out-of-bounds branch is unreachable for
every input, the empty slice included. -/
theorem config_new_no_panic (args : List String) :
    Config.new? args = some (Config.new args) := by
  unfold Config.new? Config.new
  by_cases h : args.length < 3
  · rw [if_pos h, dif_pos h]
  · rw [if_neg h, dif_neg h,
      List.get?_eq_get (show 1 < args.length by omega),
      List.get?_eq_get (show 2 < args.length by omega)]
